import Mathlib

/-!
Verification of the quota-constrained rotation scraper and multi-factor
outlier/velocity scoring pipeline of a YouTube competitor dashboard.

The TypeScript sources are shallowly embedded: JavaScript `number`
arithmetic is modelled over `ℚ` (every computation the claims touch is a
ratio of machine-representable quantities; decimal literals such as `0.4`
or `0.05` denote the exact rationals they are written as), timestamps are
milliseconds since epoch as `ℚ`, `Math.round` is `⌊x + 1/2⌋`, async
collaborator calls are modelled as `Except String` results supplied
through an environment record, and the browser-local key-value store is
threaded as explicit state.
-/

/-- JavaScript `Math.round`: round half toward positive infinity. -/
def jsRound (q : ℚ) : ℤ := ⌊q + 1/2⌋

theorem jsRound_mono {a b : ℚ} (h : a ≤ b) : jsRound a ≤ jsRound b :=
  Int.floor_le_floor (by linarith)

namespace OutlierDetector

/-- Input of the Outlier Scorer (src/services/intelligence/outlierDetector.ts,
`VideoMetrics`).  `publishedAt` is a timestamp in milliseconds. -/
structure VideoMetrics where
  videoId : String
  channelId : String
  views : ℚ
  likes : ℚ
  comments : ℚ
  publishedAt : ℚ
  channelAvgViews : ℚ
deriving Repr, DecidableEq

/-- Result of the Outlier Scorer (`OutlierResult`).  The informational
`reasons` string list of the source is not modelled (no claim mentions it). -/
structure OutlierResult where
  videoId : String
  outlierScore : ℤ
  multiplier : ℚ
  velocityScore : ℚ
  engagementRatio : ℚ
  isOutlier : Bool
deriving Repr, DecidableEq

/-- `calculateEngagementRatio` (outlierDetector.ts line 37). -/
def calculateEngagementRatio (likes comments views : ℚ) : ℚ :=
  if views = 0 then 0 else (likes + comments) / views

/-- `calculateMultiplier` (outlierDetector.ts line 45). -/
def calculateMultiplier (videoViews channelAvgViews : ℚ) : ℚ :=
  if channelAvgViews = 0 then 1 else videoViews / channelAvgViews

/-- Hours elapsed between `publishedAt` and `now`, both in milliseconds:
`(now.getTime() - publishDate.getTime()) / (1000 * 60 * 60)`. -/
def hoursSincePublish (now publishedAt : ℚ) : ℚ :=
  (now - publishedAt) / (1000 * 60 * 60)

/-- `calculateVelocityScore` of the Outlier Scorer (outlierDetector.ts
line 53), parameterized by the clock `now`. -/
def calculateVelocityScore (now views publishedAt channelAvgViews : ℚ) : ℚ :=
  let h := hoursSincePublish now publishedAt
  if h = 0 then 0
  else
    let viewsPerHour := views / h
    let avgViewsPerHour := channelAvgViews / (24 * 7)
    if avgViewsPerHour = 0 then 0
    else min 10 (viewsPerHour / avgViewsPerHour)

/-- `calculateRecencyBonus` (outlierDetector.ts line 78). -/
def calculateRecencyBonus (now publishedAt : ℚ) : ℚ :=
  let h := hoursSincePublish now publishedAt
  if h ≤ 24 then 1
  else if h ≤ 48 then 1/2
  else 0

/-- `detectOutlier` (outlierDetector.ts line 91), parameterized by the
clock `now` (milliseconds). -/
def detectOutlier (now : ℚ) (metrics : VideoMetrics) : OutlierResult :=
  let multiplier := calculateMultiplier metrics.views metrics.channelAvgViews
  let engagementRatio := calculateEngagementRatio metrics.likes metrics.comments metrics.views
  let velocityScore := calculateVelocityScore now metrics.views metrics.publishedAt metrics.channelAvgViews
  let recencyBonus := calculateRecencyBonus now metrics.publishedAt
  let multiplierScore := min 10 ((multiplier - 1) * 2)
  let avgEngagementRatio : ℚ := 0.05
  let engagementScore := min 10 (engagementRatio / avgEngagementRatio)
  let score := multiplierScore * 0.4 + velocityScore * 0.3 + engagementScore * 0.2
    + recencyBonus * 10 * 0.1
  let finalScore := max 1 (min 10 (jsRound score))
  { videoId := metrics.videoId
    outlierScore := finalScore
    multiplier := multiplier
    velocityScore := velocityScore
    engagementRatio := engagementRatio
    isOutlier := decide (6 ≤ finalScore) || decide (3 ≤ multiplier) }

end OutlierDetector

namespace VelocityCalculator

/-- The standalone `calculateVelocityScore` of the velocity calculator
(velocityCalculator.ts line 92): maps a raw views-per-hour velocity to a
1-10 scale against a weekly baseline `channelAvgViews / 168`.  Distinct
from the Outlier Scorer's internal velocity term. -/
def calculateVelocityScore (velocity channelAvgViews : ℚ) : ℚ :=
  let avgVelocity := channelAvgViews / 168
  if avgVelocity = 0 then 5
  else
    let multiplier := velocity / avgVelocity
    if multiplier ≤ 1/2 then 1
    else if multiplier ≤ 1 then (jsRound (1 + (multiplier - 1/2) * 8) : ℚ)
    else if multiplier ≤ 2 then (jsRound (5 + (multiplier - 1) * 3) : ℚ)
    else min 10 (jsRound (8 + (multiplier - 2) * 1) : ℚ)

end VelocityCalculator

/-- C1: For every input to the Outlier Scorer (any non-negative views,
likes, comments, any publishedAt timestamp, any non-negative
channelAvgViews) and any clock, the `outlierScore` returned by
`detectOutlier` is an integer (it is of type `ℤ` by construction) between
1 and 10 inclusive — never 0 and never above 10. -/
theorem detectOutlier_score_bounded (now : ℚ) (m : OutlierDetector.VideoMetrics)
    (hv : 0 ≤ m.views) (hl : 0 ≤ m.likes) (hc : 0 ≤ m.comments)
    (ha : 0 ≤ m.channelAvgViews) :
    1 ≤ (OutlierDetector.detectOutlier now m).outlierScore ∧
      (OutlierDetector.detectOutlier now m).outlierScore ≤ 10 := by
  unfold OutlierDetector.detectOutlier
  refine ⟨le_max_left _ _, ?_⟩
  exact max_le (by norm_num) (min_le_left _ _)

/-- Witness for C1 at a concrete input. -/
theorem detectOutlier_score_bounded_witness :
    (0 : ℚ) ≤ 5000 ∧ (0 : ℚ) ≤ 200 ∧ (0 : ℚ) ≤ 50 ∧ (0 : ℚ) ≤ 1000 ∧
    (1 ≤ (OutlierDetector.detectOutlier 7200000
        { videoId := "v1", channelId := "c1", views := 5000, likes := 200,
          comments := 50, publishedAt := 0, channelAvgViews := 1000 }).outlierScore ∧
      (OutlierDetector.detectOutlier 7200000
        { videoId := "v1", channelId := "c1", views := 5000, likes := 200,
          comments := 50, publishedAt := 0, channelAvgViews := 1000 }).outlierScore ≤ 10) :=
  ⟨by norm_num, by norm_num, by norm_num, by norm_num,
    detectOutlier_score_bounded 7200000
      { videoId := "v1", channelId := "c1", views := 5000, likes := 200,
        comments := 50, publishedAt := 0, channelAvgViews := 1000 }
      (by norm_num) (by norm_num) (by norm_num) (by norm_num)⟩

/-- C10: for every velocity, the standalone velocity-to-score mapping
returns the constant mid-range score 5 when `channelAvgViews = 0`, while
the Outlier Scorer's internal velocity term yields 0 for a zero baseline
(for every clock, views and publish time). -/
theorem velocityScore_zero_baseline (velocity : ℚ) :
    VelocityCalculator.calculateVelocityScore velocity 0 = 5 ∧
      ∀ now views publishedAt : ℚ,
        OutlierDetector.calculateVelocityScore now views publishedAt 0 = 0 := by
  constructor
  · unfold VelocityCalculator.calculateVelocityScore
    norm_num
  · intro now views publishedAt
    unfold OutlierDetector.calculateVelocityScore
    by_cases h : OutlierDetector.hoursSincePublish now publishedAt = 0 <;> simp [h]

/-- Witness for C10 at a concrete velocity. -/
theorem velocityScore_zero_baseline_witness :
    VelocityCalculator.calculateVelocityScore 250 0 = 5 ∧
      ∀ now views publishedAt : ℚ,
        OutlierDetector.calculateVelocityScore now views publishedAt 0 = 0 :=
  velocityScore_zero_baseline 250

/-- C2 counterexample: increasing views alone CAN decrease the score.
With channelAvgViews = 1, published 1 hour ago, likes = 15, comments = 0,
raising views from 100 to 150 drops the engagement term (likes+comments
stay fixed while views grow) after the multiplier and velocity terms are
already capped at 10, and the rounded score falls from 9 to 8. -/
theorem detectOutlier_views_not_mono_cex :
    (100 : ℚ) ≤ 150 ∧
      (OutlierDetector.detectOutlier 3600000
          { videoId := "v", channelId := "c", views := 150, likes := 15,
            comments := 0, publishedAt := 0, channelAvgViews := 1 }).outlierScore <
        (OutlierDetector.detectOutlier 3600000
          { videoId := "v", channelId := "c", views := 100, likes := 15,
            comments := 0, publishedAt := 0, channelAvgViews := 1 }).outlierScore := by
  constructor
  · norm_num
  · norm_num [OutlierDetector.detectOutlier, OutlierDetector.calculateMultiplier,
      OutlierDetector.calculateEngagementRatio, OutlierDetector.calculateVelocityScore,
      OutlierDetector.calculateRecencyBonus, OutlierDetector.hoursSincePublish, jsRound]

/-- C2 amended: holding likes, comments, publishedAt, channelAvgViews and
the clock fixed, with `likes + comments = 0` (so the engagement term,
which otherwise shrinks as views grow, is identically zero) and the video
published no later than the clock, increasing views never decreases the
`outlierScore` returned by `detectOutlier`. -/
theorem detectOutlier_score_mono_of_zero_engagement
    (now pub A likes comments v1 v2 : ℚ) (i c : String)
    (hv : v1 ≤ v2) (hA : 0 ≤ A) (hlc : likes + comments = 0) (hpub : pub ≤ now) :
    (OutlierDetector.detectOutlier now
        { videoId := i, channelId := c, views := v1, likes := likes,
          comments := comments, publishedAt := pub, channelAvgViews := A }).outlierScore ≤
      (OutlierDetector.detectOutlier now
        { videoId := i, channelId := c, views := v2, likes := likes,
          comments := comments, publishedAt := pub, channelAvgViews := A }).outlierScore := by
  have hrat : ∀ v : ℚ, OutlierDetector.calculateEngagementRatio likes comments v = 0 := by
    intro v
    unfold OutlierDetector.calculateEngagementRatio
    rw [hlc]
    by_cases h : v = 0 <;> simp [h]
  have hmul : OutlierDetector.calculateMultiplier v1 A ≤
      OutlierDetector.calculateMultiplier v2 A := by
    unfold OutlierDetector.calculateMultiplier
    by_cases h : A = 0
    · simp [h]
    · have hApos : 0 < A := lt_of_le_of_ne hA (Ne.symm h)
      simp only [h, if_false]
      exact (div_le_div_iff_of_pos_right hApos).mpr hv
  have hvel : OutlierDetector.calculateVelocityScore now v1 pub A ≤
      OutlierDetector.calculateVelocityScore now v2 pub A := by
    unfold OutlierDetector.calculateVelocityScore
    by_cases hh : OutlierDetector.hoursSincePublish now pub = 0
    · simp [hh]
    · have hh0 : 0 ≤ OutlierDetector.hoursSincePublish now pub := by
        unfold OutlierDetector.hoursSincePublish
        have : 0 ≤ now - pub := by linarith
        positivity
      have hhpos : 0 < OutlierDetector.hoursSincePublish now pub :=
        lt_of_le_of_ne hh0 (Ne.symm hh)
      by_cases hA0 : A = 0
      · simp [hA0]
      · have havg : ¬ (A / (24 * 7) : ℚ) = 0 := div_ne_zero hA0 (by norm_num)
        simp only [if_neg hh, if_neg havg]
        refine min_le_min (le_refl 10) ?_
        have h1 : v1 / OutlierDetector.hoursSincePublish now pub ≤
            v2 / OutlierDetector.hoursSincePublish now pub :=
          (div_le_div_iff_of_pos_right hhpos).mpr hv
        have hApos : 0 < A := lt_of_le_of_ne hA (Ne.symm hA0)
        have havgpos : 0 < (A / (24 * 7) : ℚ) := by positivity
        exact (div_le_div_iff_of_pos_right havgpos).mpr h1
  unfold OutlierDetector.detectOutlier
  dsimp only
  apply max_le_max (le_refl (1 : ℤ))
  apply min_le_min (le_refl (10 : ℤ))
  apply jsRound_mono
  rw [hrat v1, hrat v2]
  have hms : min (10 : ℚ) ((OutlierDetector.calculateMultiplier v1 A - 1) * 2) ≤
      min (10 : ℚ) ((OutlierDetector.calculateMultiplier v2 A - 1) * 2) :=
    min_le_min (le_refl _) (by linarith)
  linarith

/-- Witness for the amended C2 at concrete inputs. -/
theorem detectOutlier_score_mono_of_zero_engagement_witness :
    (10 : ℚ) ≤ 20 ∧ (0 : ℚ) ≤ 1000 ∧ (0 : ℚ) + 0 = 0 ∧ (0 : ℚ) ≤ 36000000 ∧
      (OutlierDetector.detectOutlier 36000000
          { videoId := "v", channelId := "c", views := 10, likes := 0,
            comments := 0, publishedAt := 0, channelAvgViews := 1000 }).outlierScore ≤
        (OutlierDetector.detectOutlier 36000000
          { videoId := "v", channelId := "c", views := 20, likes := 0,
            comments := 0, publishedAt := 0, channelAvgViews := 1000 }).outlierScore :=
  ⟨by norm_num, by norm_num, by norm_num, by norm_num,
    detectOutlier_score_mono_of_zero_engagement 36000000 0 1000 0 0 10 20 "v" "c"
      (by norm_num) (by norm_num) (by norm_num) (by norm_num)⟩

namespace Quota

/-- One entry of the quota ledger's operation log
(src/services/youtube/quota.ts, `QuotaOperation`). -/
structure QuotaOperation where
  timestamp : String
  operation : String
  cost : ℤ
deriving Repr, DecidableEq

/-- The persisted quota ledger (`QuotaUsage`). -/
structure QuotaUsage where
  date : String
  used : ℤ
  limit : ℤ
  operations : List QuotaOperation
deriving Repr, DecidableEq

/-- The static `QUOTA_COSTS` table (quota.ts line 329). -/
def QUOTA_COSTS (op : String) : Option ℤ :=
  if op = "videos.list" then some 1
  else if op = "channels.list" then some 1
  else if op = "playlistItems.list" then some 1
  else if op = "commentThreads.list" then some 1
  else if op = "search.list" then some 100
  else if op = "videos.update" then some 50
  else if op = "playlists.insert" then some 50
  else none

/-- `QUOTA_COSTS[operation] || 1` (quota.ts lines 394 and 416). -/
def quotaCost (op : String) : ℤ := (QUOTA_COSTS op).getD 1

/-- `getQuotaUsage` (quota.ts line 354): load the stored ledger, lazily
resetting `used` and `operations` when the stored date differs from
today.  `stored` models the localStorage cell, `today` the current
date string, `configLimit` the configured `config.youtube.quotaLimit`. -/
def getQuotaUsage (stored : Option QuotaUsage) (today : String) (configLimit : ℤ) : QuotaUsage :=
  match stored with
  | none => { date := today, used := 0, limit := configLimit, operations := [] }
  | some data =>
    if data.date ≠ today then
      { date := today, used := 0, limit := configLimit, operations := [] }
    else data

/-- `trackQuotaUsage` (quota.ts line 392): debit an operation.  Appends
the operation record, increments `used` without clamping, and keeps only
the most recent 100 log entries (`slice(-100)`).  `nowIso` is the
timestamp string recorded in the log. -/
def trackQuotaUsage (stored : Option QuotaUsage) (today : String) (configLimit : ℤ)
    (op : String) (nowIso : String) : QuotaUsage :=
  let usage := getQuotaUsage stored today configLimit
  let cost := quotaCost op
  let ops1 := usage.operations ++ [{ timestamp := nowIso, operation := op, cost := cost }]
  let ops2 := if 100 < ops1.length then ops1.drop (ops1.length - 100) else ops1
  { usage with used := usage.used + cost, operations := ops2 }

/-- `canUseQuota` (quota.ts line 414). -/
def canUseQuota (stored : Option QuotaUsage) (today : String) (configLimit : ℤ)
    (op : String) : Bool :=
  let usage := getQuotaUsage stored today configLimit
  decide (usage.used + quotaCost op ≤ usage.limit)

/-- `getRemainingQuota` (quota.ts line 423): `max(0, limit - used)` after
the lazy rollover. -/
def getRemainingQuota (stored : Option QuotaUsage) (today : String) (configLimit : ℤ) : ℤ :=
  let usage := getQuotaUsage stored today configLimit
  max 0 (usage.limit - usage.used)

end Quota

/-- C7: with a stored ledger dated yesterday with used = 9000 and
limit = 10000, calling `getRemainingQuota` today (config limit 10000)
returns 10000 — the full daily budget, because the lazy day rollover
resets `used` to 0 and clears `operations` — not 1000. -/
theorem quota_day_rollover_full_budget :
    Quota.getRemainingQuota
        (some { date := "2024-01-01", used := 9000, limit := 10000, operations := [] })
        "2024-01-02" 10000 = 10000 ∧
      (Quota.getQuotaUsage
        (some { date := "2024-01-01", used := 9000, limit := 10000, operations := [] })
        "2024-01-02" 10000).used = 0 ∧
      (Quota.getQuotaUsage
        (some { date := "2024-01-01", used := 9000, limit := 10000, operations := [] })
        "2024-01-02" 10000).operations = [] := by
  refine ⟨?_, ?_, ?_⟩ <;> decide

/-- C8: debiting via `trackQuotaUsage` when `used + cost > limit` still
increments `used` past `limit` (the ledger never clamps or blocks), and
afterwards `getRemainingQuota` returns 0 = max(0, limit - used), never a
negative number. -/
theorem quota_debit_never_clamps (u : Quota.QuotaUsage) (today : String) (configLimit : ℤ)
    (op : String) (nowIso : String)
    (hdate : u.date = today)
    (hover : u.limit < u.used + Quota.quotaCost op) :
    (Quota.trackQuotaUsage (some u) today configLimit op nowIso).used
        = u.used + Quota.quotaCost op ∧
      (Quota.trackQuotaUsage (some u) today configLimit op nowIso).limit
        < (Quota.trackQuotaUsage (some u) today configLimit op nowIso).used ∧
      Quota.getRemainingQuota
        (some (Quota.trackQuotaUsage (some u) today configLimit op nowIso))
        today configLimit = 0 := by
  have hload : Quota.getQuotaUsage (some u) today configLimit = u := by
    unfold Quota.getQuotaUsage
    simp [hdate]
  have htrack : (Quota.trackQuotaUsage (some u) today configLimit op nowIso).used
      = u.used + Quota.quotaCost op := by
    unfold Quota.trackQuotaUsage
    rw [hload]
  have hlim : (Quota.trackQuotaUsage (some u) today configLimit op nowIso).limit = u.limit := by
    unfold Quota.trackQuotaUsage
    rw [hload]
  have hdate2 : (Quota.trackQuotaUsage (some u) today configLimit op nowIso).date = today := by
    unfold Quota.trackQuotaUsage
    rw [hload, hdate]
  refine ⟨htrack, ?_, ?_⟩
  · rw [htrack, hlim]
    exact hover
  · unfold Quota.getRemainingQuota
    rw [Quota.getQuotaUsage, if_neg (by simp [hdate2])]
    dsimp only
    rw [htrack, hlim]
    exact max_eq_left (by linarith)

/-- Witness for C8: a ledger at 9950/10000 debited with a 100-unit
`search.list` call. -/
theorem quota_debit_never_clamps_witness :
    ({ date := "2024-01-01", used := 9950, limit := 10000, operations := [] }
        : Quota.QuotaUsage).date = "2024-01-01" ∧
    (10000 : ℤ) < 9950 + Quota.quotaCost "search.list" ∧
    ((Quota.trackQuotaUsage
        (some { date := "2024-01-01", used := 9950, limit := 10000, operations := [] })
        "2024-01-01" 10000 "search.list" "t").used = 9950 + Quota.quotaCost "search.list" ∧
      (Quota.trackQuotaUsage
        (some { date := "2024-01-01", used := 9950, limit := 10000, operations := [] })
        "2024-01-01" 10000 "search.list" "t").limit
        < (Quota.trackQuotaUsage
        (some { date := "2024-01-01", used := 9950, limit := 10000, operations := [] })
        "2024-01-01" 10000 "search.list" "t").used ∧
      Quota.getRemainingQuota
        (some (Quota.trackQuotaUsage
          (some { date := "2024-01-01", used := 9950, limit := 10000, operations := [] })
          "2024-01-01" 10000 "search.list" "t"))
        "2024-01-01" 10000 = 0) :=
  ⟨rfl, by decide,
    quota_debit_never_clamps
      { date := "2024-01-01", used := 9950, limit := 10000, operations := [] }
      "2024-01-01" 10000 "search.list" "t" rfl (by decide)⟩

namespace Channels

/-- A tracked channel (types.ts `TrackedChannel`, scheduling fields).
`last_scraped_at` is an optional timestamp in milliseconds. -/
structure TrackedChannel where
  channel_id : String
  channel_name : String
  avg_views : ℚ
  last_scraped_at : Option ℚ
  scrape_frequency : ℚ
  is_active : Bool
  scrape_priority : ℚ
deriving Repr, DecidableEq

/-- The due filter of `getChannelsDueForScraping` (channels.ts): due when
never scraped, or when `(now - lastScraped) / 1000` seconds is at least
`scrape_frequency`. -/
def isDue (now : ℚ) (c : TrackedChannel) : Bool :=
  match c.last_scraped_at with
  | none => true
  | some t => decide (c.scrape_frequency ≤ (now - t) / 1000)

/-- The sort comparator of `getChannelsDueForScraping` as a boolean
"may come before" relation: higher `scrape_priority` first; within a
priority tier never-scraped (`none`) channels first, then older
`last_scraped_at` first.  (For two never-scraped channels of equal
priority the source's JS comparator returns -1 for either argument
order; their relative order is unspecified and the claim does not
constrain it, so the model treats them as equivalent.) -/
def channelLE (a b : TrackedChannel) : Bool :=
  if a.scrape_priority = b.scrape_priority then
    match a.last_scraped_at, b.last_scraped_at with
    | none, _ => true
    | some _, none => false
    | some ta, some tb => decide (ta ≤ tb)
  else decide (b.scrape_priority < a.scrape_priority)

theorem channelLE_trans (a b c : TrackedChannel)
    (h1 : channelLE a b = true) (h2 : channelLE b c = true) : channelLE a c = true := by
  unfold channelLE at h1 h2 ⊢
  by_cases hab : a.scrape_priority = b.scrape_priority <;>
    by_cases hbc : b.scrape_priority = c.scrape_priority
  · have hac : a.scrape_priority = c.scrape_priority := hab.trans hbc
    simp only [if_pos hab] at h1
    simp only [if_pos hbc] at h2
    simp only [if_pos hac]
    rcases ha : a.last_scraped_at with _ | ta
    · simp
    · rcases hb : b.last_scraped_at with _ | tb
      · simp [ha, hb] at h1
      · rcases hc : c.last_scraped_at with _ | tc
        · simp [hb, hc] at h2
        · simp only [ha, hb] at h1
          simp only [hb, hc] at h2
          simp only [decide_eq_true_eq] at h1 h2 ⊢
          exact le_trans h1 h2
  · have hlt : c.scrape_priority < b.scrape_priority := by
      simp only [if_neg hbc, decide_eq_true_eq] at h2
      exact h2
    have hac : ¬ a.scrape_priority = c.scrape_priority := by
      rw [hab]
      exact fun h => hbc (by linarith [hlt, h.symm.le])
    simp only [if_neg hac, decide_eq_true_eq]
    rw [hab]
    exact hlt
  · have hlt : b.scrape_priority < a.scrape_priority := by
      simp only [if_neg hab, decide_eq_true_eq] at h1
      exact h1
    have hac : ¬ a.scrape_priority = c.scrape_priority := by
      rw [← hbc]
      exact fun h => hab (by linarith [hlt, h.le])
    simp only [if_neg hac, decide_eq_true_eq]
    rw [← hbc]
    exact hlt
  · simp only [if_neg hab, decide_eq_true_eq] at h1
    simp only [if_neg hbc, decide_eq_true_eq] at h2
    have hlt : c.scrape_priority < a.scrape_priority := lt_trans h2 h1
    have hac : ¬ a.scrape_priority = c.scrape_priority := fun h => absurd h (by
      intro he
      exact absurd he.symm (ne_of_lt hlt))
    simp only [if_neg hac, decide_eq_true_eq]
    exact hlt

theorem channelLE_total (a b : TrackedChannel) :
    channelLE a b || channelLE b a := by
  unfold channelLE
  by_cases hab : a.scrape_priority = b.scrape_priority
  · simp only [if_pos hab, if_pos hab.symm]
    rcases a.last_scraped_at with _ | ta <;> rcases b.last_scraped_at with _ | tb <;> simp
    exact le_total ta tb
  · have hba : ¬ b.scrape_priority = a.scrape_priority := fun h => hab h.symm
    simp only [if_neg hab, if_neg hba]
    rcases lt_or_gt_of_ne (fun h => hab h : a.scrape_priority ≠ b.scrape_priority) with h | h
    · simp [h]
    · simp [h]

/-- `getChannelsDueForScraping` (channels.ts line 752): list the active
tracked channels, filter to those due now, sort by the comparator, and
truncate to `limit`.  The `channels` argument models the rows of the
`tracked_channels` table; the database-side `is_active = true` filter of
`getTrackedChannels(true)` is the `filter` below (the database's
priority pre-ordering only permutes rows the final sort cannot
distinguish). -/
def getChannelsDueForScraping (channels : List TrackedChannel) (limit : ℕ) (now : ℚ) :
    List TrackedChannel :=
  let active := channels.filter (fun c => c.is_active)
  let dueChannels := active.filter (isDue now)
  (dueChannels.mergeSort channelLE).take limit

end Channels

/-- C6: for every list of tracked channels, limit and current time, the
due-queue returns only active channels that are due (`last_scraped_at`
null, or now minus it at least the refresh interval), in an order where
every earlier channel may precede every later one under the comparator
(priority descending, ties by `last_scraped_at` ascending with
never-scraped channels first in a tier), truncated to at most `limit`
entries. -/
theorem getChannelsDueForScraping_spec
    (channels : List Channels.TrackedChannel) (limit : ℕ) (now : ℚ) :
    (∀ c ∈ Channels.getChannelsDueForScraping channels limit now,
        c ∈ channels ∧ c.is_active = true ∧ Channels.isDue now c = true) ∧
      (Channels.getChannelsDueForScraping channels limit now).length ≤ limit ∧
      (Channels.getChannelsDueForScraping channels limit now).Pairwise
        (fun a b => Channels.channelLE a b = true) := by
  refine ⟨?_, ?_, ?_⟩
  · intro c hc
    unfold Channels.getChannelsDueForScraping at hc
    have hms := List.take_subset _ _ hc
    rw [List.mem_mergeSort] at hms
    rw [List.mem_filter] at hms
    obtain ⟨hact, hdue⟩ := hms
    rw [List.mem_filter] at hact
    exact ⟨hact.1, hact.2, hdue⟩
  · unfold Channels.getChannelsDueForScraping
    exact List.length_take_le _ _
  · unfold Channels.getChannelsDueForScraping
    refine List.Pairwise.sublist (List.take_sublist _ _) ?_
    exact List.sorted_mergeSort
      (fun a b c hab hbc => Channels.channelLE_trans a b c hab hbc)
      (fun a b => Channels.channelLE_total a b) _

namespace Outliers

/-- An outlier row as inserted/updated by the scraper (types.ts
`OutlierInsert`; the optional free-text `notes` column, touched only by
UI code, is not modelled). -/
structure OutlierInsert where
  video_id : String
  channel_id : String
  channel_name : String
  title : String
  thumbnail_url : String
  published_at : ℚ
  duration : ℚ
  views : ℚ
  likes : ℚ
  comments : ℚ
  multiplier : ℚ
  outlier_score : ℤ
  velocity_score : ℚ
  engagement_ratio : ℚ
  detected_at : ℚ
  last_updated_at : ℚ
  first_seen_views : ℚ
  status : String
  is_new : Bool
  priority : ℚ
deriving Repr, DecidableEq

/-- The `outliers` table keyed by `video_id`. -/
def OutlierStore := String → Option OutlierInsert

/-- `getOutlier` (outliers.ts line 310): lookup by `video_id`. -/
def getOutlier (store : OutlierStore) (videoId : String) : Option OutlierInsert :=
  store videoId

/-- `upsertOutlier` (outliers.ts line 325).  When a row for `video_id`
exists, the source updates it with `{ ...outlier, last_updated_at: now }`:
the spread copies EVERY incoming field — including `detected_at` and
`first_seen_views` — over the stored row, then stamps
`last_updated_at`.  When no row exists, the incoming record is inserted
as-is. -/
def upsertOutlier (store : OutlierStore) (o : OutlierInsert) (now : ℚ) : OutlierStore :=
  match getOutlier store o.video_id with
  | some _ =>
    fun k => if k = o.video_id then some { o with last_updated_at := now } else store k
  | none =>
    fun k => if k = o.video_id then some o else store k

/-- The empty outliers table. -/
def emptyStore : OutlierStore := fun _ => none

end Outliers

/-- C3 (code bug): upserting the same `video_id` twice with different
metrics does NOT leave `detected_at` and `first_seen_views` at the
first-insert values — the update spreads the whole incoming record, so
the second upsert (which the scraper always builds with a fresh
`detected_at := now` and `first_seen_views := current views`, see
scraper.ts lines 168-170) overwrites both.  Concretely: first upsert at
time 1000 with first_seen_views = 100, second upsert at time 2000 with
first_seen_views = 250 leaves the stored row with first_seen_views = 250
and detected_at = 2000 (and last_updated_at = 2000). -/
theorem upsertOutlier_overwrites_detected_at_and_first_seen_views :
    (Outliers.upsertOutlier
        (Outliers.upsertOutlier Outliers.emptyStore
          { video_id := "v1", channel_id := "c1", channel_name := "Chan",
            title := "T", thumbnail_url := "u", published_at := 0, duration := 0,
            views := 100, likes := 5, comments := 1, multiplier := 4,
            outlier_score := 7, velocity_score := 2, engagement_ratio := 6/100,
            detected_at := 1000, last_updated_at := 1000, first_seen_views := 100,
            status := "active", is_new := true, priority := 5 } 1000)
        { video_id := "v1", channel_id := "c1", channel_name := "Chan",
          title := "T", thumbnail_url := "u", published_at := 0, duration := 0,
          views := 250, likes := 9, comments := 2, multiplier := 10,
          outlier_score := 8, velocity_score := 3, engagement_ratio := 11/250,
          detected_at := 2000, last_updated_at := 2000, first_seen_views := 250,
          status := "active", is_new := true, priority := 5 } 2000) "v1"
      = some
        { video_id := "v1", channel_id := "c1", channel_name := "Chan",
          title := "T", thumbnail_url := "u", published_at := 0, duration := 0,
          views := 250, likes := 9, comments := 2, multiplier := 10,
          outlier_score := 8, velocity_score := 3, engagement_ratio := 11/250,
          detected_at := 2000, last_updated_at := 2000, first_seen_views := 250,
          status := "active", is_new := true, priority := 5 } ∧
      (2000 : ℚ) ≠ 1000 ∧ (250 : ℚ) ≠ 100 := by
  refine ⟨?_, by norm_num, by norm_num⟩
  rfl

namespace Scraper

/-- Channel statistics as used by the scraper
(`stats.statistics` of `fetchChannelStats`). -/
structure ChannelStats where
  viewCount : ℚ
  videoCount : ℚ
  subscriberCount : ℚ
deriving Repr, DecidableEq

/-- One fetched video (`fetchChannelVideos` item).  `likes` and
`comments` may be absent (the source applies `|| 0`). -/
structure Video where
  id : String
  title : String
  thumbnailUrl : String
  views : ℚ
  likes : Option ℚ
  comments : Option ℚ
  publishDate : ℚ
deriving Repr, DecidableEq

/-- A stored video snapshot row (types.ts `VideoSnapshot`, the fields the
velocity computation reads). -/
structure VideoSnapshot where
  video_id : String
  channel_id : String
  views : ℚ
  likes : ℚ
  comments : ℚ
  snapshot_at : ℚ
deriving Repr, DecidableEq

/-- `calculateVelocityBetweenSnapshots` (velocityCalculator.ts line 22):
views delta per hour between two snapshots; a zero-duration pair yields
0 rather than dividing by zero. -/
def calculateVelocityBetweenSnapshots (newer older : VideoSnapshot) : ℚ :=
  let hoursDelta := ((newer.snapshot_at - older.snapshot_at) / 1000) / 3600
  if hoursDelta = 0 then 0 else (newer.views - older.views) / hoursDelta

/-- A snapshot row built by the scraper (types.ts `VideoSnapshotInsert`). -/
structure VideoSnapshotInsert where
  video_id : String
  channel_id : String
  views : ℚ
  likes : ℚ
  comments : ℚ
  title : String
  thumbnail_url : String
  published_at : ℚ
  duration : ℚ
  engagement_ratio : ℚ
  velocity_score : ℚ
  multiplier : ℚ
  outlier_score : ℤ
  snapshot_at : ℚ
deriving Repr, DecidableEq

/-- `ScrapeResult` (scraper.ts line 21). -/
structure ScrapeResult where
  channelId : String
  channelName : String
  videosScraped : ℕ
  outliersDetected : ℕ
  snapshotsStored : ℕ
  quotaUsed : ℤ
  errors : List String
deriving Repr, DecidableEq

/-- `ScrapeOptions` (scraper.ts line 31) with the source's defaults.
`maxVideosPerChannel` is passed to the video fetch, which the
environment models, so it does not appear elsewhere in the embedding. -/
structure ScrapeOptions where
  maxVideosPerChannel : ℕ := 5
  minOutlierScore : ℚ := 6
  storeAllSnapshots : Bool := false
deriving Repr, DecidableEq

/-- The collaborators of `scrapeChannel`: the clock, the quota ledger
cell (localStorage) with the current date and configured limit, and the
outcome of each awaited call.  A `.error` models a rejected promise /
thrown exception from that call. -/
structure ScrapeEnv where
  now : ℚ
  nowIso : String
  today : String
  configLimit : ℤ
  quotaStored : Option Quota.QuotaUsage
  fetchChannelStats : Except String (Option ChannelStats)
  fetchChannelVideos : Except String (List Video)
  getLatestSnapshot : String → Except String (Option VideoSnapshot)
  addSnapshotsBulk : List VideoSnapshotInsert → Except String Unit
  upsertOutlier : Outliers.OutlierInsert → Except String Unit
  updateChannelStats : Except String Unit
  markChannelScraped : Except String Unit

/-- `channel.avg_views || stats.statistics.viewCount /
stats.statistics.videoCount || 10000` (scraper.ts line 77).  JavaScript
`||` takes the first non-zero (truthy) alternative; a zero video count
makes the quotient NaN (0/0, falsy — modelled) or Infinity (x/0 with
x > 0, a truthy poison value the model maps to the 10000 fallback
instead, as no claim exercises it). -/
def computeAvgViews (channelAvgViews : ℚ) (stats : ChannelStats) : ℚ :=
  if channelAvgViews ≠ 0 then channelAvgViews
  else if stats.videoCount = 0 then 10000
  else if stats.viewCount / stats.videoCount = 0 then 10000
  else stats.viewCount / stats.videoCount

/-- The body of the per-video `try` block (scraper.ts lines 97-178):
read the prior snapshot, derive the pairwise velocity when one exists,
run the Outlier Scorer, and build the snapshot row (kept only if the
video is an outlier or `storeAllSnapshots` is set) and the outlier row
(kept only if `outlierScore >= minOutlierScore`). -/
def processVideo (env : ScrapeEnv) (ch : Channels.TrackedChannel) (avgViews : ℚ)
    (opts : ScrapeOptions) (video : Video) :
    Except String (Option VideoSnapshotInsert × Option Outliers.OutlierInsert) :=
  match env.getLatestSnapshot video.id with
  | .error e => .error e
  | .ok previousSnapshot =>
    let likes := video.likes.getD 0
    let comments := video.comments.getD 0
    let velocityScore : ℚ :=
      match previousSnapshot with
      | some prev =>
        calculateVelocityBetweenSnapshots
          { video_id := video.id, channel_id := ch.channel_id, views := video.views,
            likes := likes, comments := comments, snapshot_at := env.now } prev
      | none => 0
    let outlierResult := OutlierDetector.detectOutlier env.now
      { videoId := video.id, channelId := ch.channel_id, views := video.views,
        likes := likes, comments := comments, publishedAt := video.publishDate,
        channelAvgViews := avgViews }
    let snapshot : VideoSnapshotInsert :=
      { video_id := video.id, channel_id := ch.channel_id, views := video.views,
        likes := likes, comments := comments, title := video.title,
        thumbnail_url := video.thumbnailUrl, published_at := video.publishDate,
        duration := 0, engagement_ratio := outlierResult.engagementRatio,
        velocity_score := if velocityScore = 0 then outlierResult.velocityScore else velocityScore,
        multiplier := outlierResult.multiplier, outlier_score := outlierResult.outlierScore,
        snapshot_at := env.now }
    let snapOpt := if outlierResult.isOutlier || opts.storeAllSnapshots then some snapshot else none
    let outOpt :=
      if opts.minOutlierScore ≤ (outlierResult.outlierScore : ℚ) then
        some
          { video_id := video.id, channel_id := ch.channel_id,
            channel_name := ch.channel_name, title := video.title,
            thumbnail_url := video.thumbnailUrl, published_at := video.publishDate,
            duration := 0, views := video.views, likes := likes, comments := comments,
            multiplier := outlierResult.multiplier,
            outlier_score := outlierResult.outlierScore,
            velocity_score := if velocityScore = 0 then outlierResult.velocityScore else velocityScore,
            engagement_ratio := outlierResult.engagementRatio,
            detected_at := env.now, last_updated_at := env.now,
            first_seen_views := video.views, status := "active", is_new := true,
            priority := 5 }
      else none
    .ok (snapOpt, outOpt)

/-- The error entry recorded by the per-video `catch` (scraper.ts
line 180). -/
def videoErrorEntry (video : Video) (e : String) : String :=
  "Video " ++ video.id ++ ": " ++ e

/-- The error entry appended by the channel-level `catch`
(scraper.ts line 218). -/
def pushScrapeFailed (r : ScrapeResult) (e : String) : ScrapeResult :=
  { r with errors := r.errors ++ ["Scrape failed: " ++ e] }

/-- The persistence phase after the per-video loop (scraper.ts lines
184-212): bulk-insert the collected snapshots (one caught error entry on
failure), upsert each collected outlier (an independently caught error
entry per failure), then update the channel stats (caught error entry on
failure). -/
def persistPhase (env : ScrapeEnv) (r : ScrapeResult)
    (snapshots : List VideoSnapshotInsert) (outliers : List Outliers.OutlierInsert) :
    ScrapeResult :=
  let r3 :=
    if 0 < snapshots.length then
      match env.addSnapshotsBulk snapshots with
      | .ok _ => { r with snapshotsStored := snapshots.length }
      | .error e => { r with errors := r.errors ++ ["Snapshot insert failed: " ++ e] }
    else r
  let upsertErrors := outliers.filterMap (fun o =>
    match env.upsertOutlier o with
    | .ok _ => none
    | .error e => some ("Outlier upsert failed for " ++ o.video_id ++ ": " ++ e))
  let r4 := { r3 with errors := r3.errors ++ upsertErrors }
  match env.updateChannelStats with
  | .ok _ => r4
  | .error e => { r4 with errors := r4.errors ++ ["Channel stats update failed: " ++ e] }

/-- `scrapeChannel` (scraper.ts line 40).  The whole body sits in a
`try/catch` whose `catch` appends a `Scrape failed:` entry to whatever
the partially-mutated result already holds, so the function is total: it
returns a `ScrapeResult` (plus the updated quota cell) on every path and
models the source's never-throws contract.  Channel-level steps in
order: quota gate for `channels.list`, stats fetch + debit, null-stats
check, average-views derivation, quota gate for `playlistItems.list`,
video fetch + debit, empty-list check (which the source treats as a
thrown error), the per-video loop (each iteration's failure caught
individually), persistence, and `markChannelScraped` (uncaught
individually, so its failure reaches the channel-level catch).
`quotaUsed` is the drop in remaining quota measured across the call. -/
def scrapeChannel (env : ScrapeEnv) (ch : Channels.TrackedChannel) (opts : ScrapeOptions) :
    ScrapeResult × Option Quota.QuotaUsage :=
  let r0 : ScrapeResult :=
    { channelId := ch.channel_id, channelName := ch.channel_name, videosScraped := 0,
      outliersDetected := 0, snapshotsStored := 0, quotaUsed := 0, errors := [] }
  let quotaBefore := Quota.getRemainingQuota env.quotaStored env.today env.configLimit
  let rq :=
    if Quota.canUseQuota env.quotaStored env.today env.configLimit "channels.list" = true then
      match env.fetchChannelStats with
      | .error e => (pushScrapeFailed r0 e, env.quotaStored)
      | .ok statsOpt =>
        let q1 := some (Quota.trackQuotaUsage env.quotaStored env.today env.configLimit
          "channels.list" env.nowIso)
        match statsOpt with
        | none => (pushScrapeFailed r0 "Failed to fetch channel stats", q1)
        | some stats =>
          let avgViews := computeAvgViews ch.avg_views stats
          if Quota.canUseQuota q1 env.today env.configLimit "playlistItems.list" = true then
            match env.fetchChannelVideos with
            | .error e => (pushScrapeFailed r0 e, q1)
            | .ok videos =>
              let q2 := some (Quota.trackQuotaUsage q1 env.today env.configLimit
                "playlistItems.list" env.nowIso)
              let r1 := { r0 with videosScraped := videos.length }
              if videos.length = 0 then
                (pushScrapeFailed r1 "No videos found for channel", q2)
              else
                let outcomes := videos.map (fun v => (v, processVideo env ch avgViews opts v))
                let snapshots := outcomes.filterMap (fun p =>
                  match p.2 with | .ok (s, _) => s | .error _ => none)
                let outlierRows := outcomes.filterMap (fun p =>
                  match p.2 with | .ok (_, o) => o | .error _ => none)
                let videoErrors := outcomes.filterMap (fun p =>
                  match p.2 with | .ok _ => none | .error e => some (videoErrorEntry p.1 e))
                let r2 :=
                  { r1 with
                    outliersDetected := outlierRows.length,
                    errors := videoErrors }
                let r5 := persistPhase env r2 snapshots outlierRows
                match env.markChannelScraped with
                | .ok _ => (r5, q2)
                | .error e => (pushScrapeFailed r5 e, q2)
          else (pushScrapeFailed r0 "Insufficient quota for playlistItems.list", q1)
    else (pushScrapeFailed r0 "Insufficient quota for channels.list", env.quotaStored)
  let quotaAfter := Quota.getRemainingQuota rq.2 env.today env.configLimit
  ({ rq.1 with quotaUsed := quotaBefore - quotaAfter }, rq.2)

end Scraper

/-- The persistence phase only appends error entries and sets
`snapshotsStored`; it never changes the counters or identity fields of
the result it was handed. -/
theorem persistPhase_shape (env : Scraper.ScrapeEnv) (r : Scraper.ScrapeResult)
    (snapshots : List Scraper.VideoSnapshotInsert)
    (outliers : List Outliers.OutlierInsert) :
    ∃ t, (Scraper.persistPhase env r snapshots outliers).errors = r.errors ++ t ∧
      (Scraper.persistPhase env r snapshots outliers).videosScraped = r.videosScraped ∧
      (Scraper.persistPhase env r snapshots outliers).outliersDetected = r.outliersDetected := by
  unfold Scraper.persistPhase
  by_cases hl : 0 < snapshots.length <;>
    rcases hadd : env.addSnapshotsBulk snapshots with e | u <;>
    rcases hupd : env.updateChannelStats with e2 | u2 <;>
    simp [hl, hadd, hupd, List.append_assoc]

/-- A concrete environment whose video fetch succeeds with zero videos:
quota fresh, channel stats present, every persistence call succeeding. -/
def zeroVideosEnv : Scraper.ScrapeEnv :=
  { now := 0, nowIso := "t0", today := "2024-01-01", configLimit := 10000,
    quotaStored := none,
    fetchChannelStats :=
      .ok (some { viewCount := 50000, videoCount := 10, subscriberCount := 1000 }),
    fetchChannelVideos := .ok [],
    getLatestSnapshot := fun _ => .ok none,
    addSnapshotsBulk := fun _ => .ok (),
    upsertOutlier := fun _ => .ok (),
    updateChannelStats := .ok (),
    markChannelScraped := .ok () }

/-- A concrete tracked channel used as a fixture. -/
def sampleChannel : Channels.TrackedChannel :=
  { channel_id := "UC1", channel_name := "Chan", avg_views := 5000,
    last_scraped_at := none, scrape_frequency := 21600, is_active := true,
    scrape_priority := 5 }

/-- C4 counterexample: when the video fetch succeeds but returns zero
videos, `scrapeChannel` does NOT record this as not-an-error — the
source throws `No videos found for channel`, the channel-level catch
records it, and the errors list contains exactly that entry. -/
theorem scrapeChannel_zero_videos_cex :
    ((Scraper.scrapeChannel zeroVideosEnv sampleChannel {}).1).errors
        = ["Scrape failed: No videos found for channel"] ∧
      ((Scraper.scrapeChannel zeroVideosEnv sampleChannel {}).1).videosScraped = 0 := by
  constructor <;> rfl

/-- C4 amended: whenever the channel-level setup succeeds (both quota
gates pass, the stats fetch returns data) and the video fetch succeeds
with an empty list, `scrapeChannel` records the zero-videos condition AS
an error: the result's errors list is exactly
`["Scrape failed: No videos found for channel"]` (and `videosScraped` is
0), so zero-videos-found is reported through the same errors list as
fetch failures, distinguishable only by its message. -/
theorem scrapeChannel_zero_videos_recorded_as_error
    (env : Scraper.ScrapeEnv) (ch : Channels.TrackedChannel)
    (opts : Scraper.ScrapeOptions) (stats : Scraper.ChannelStats)
    (h1 : Quota.canUseQuota env.quotaStored env.today env.configLimit "channels.list" = true)
    (h2 : env.fetchChannelStats = .ok (some stats))
    (h3 : Quota.canUseQuota
        (some (Quota.trackQuotaUsage env.quotaStored env.today env.configLimit
          "channels.list" env.nowIso))
        env.today env.configLimit "playlistItems.list" = true)
    (h4 : env.fetchChannelVideos = .ok []) :
    ((Scraper.scrapeChannel env ch opts).1).errors
        = ["Scrape failed: No videos found for channel"] ∧
      ((Scraper.scrapeChannel env ch opts).1).videosScraped = 0 := by
  unfold Scraper.scrapeChannel
  rw [h2, h4]
  simp [h1, h3, Scraper.pushScrapeFailed]

/-- Witness for the amended C4 at the concrete zero-videos environment. -/
theorem scrapeChannel_zero_videos_recorded_as_error_witness :
    Quota.canUseQuota zeroVideosEnv.quotaStored zeroVideosEnv.today
        zeroVideosEnv.configLimit "channels.list" = true ∧
      zeroVideosEnv.fetchChannelStats
        = .ok (some { viewCount := 50000, videoCount := 10, subscriberCount := 1000 }) ∧
      Quota.canUseQuota
        (some (Quota.trackQuotaUsage zeroVideosEnv.quotaStored zeroVideosEnv.today
          zeroVideosEnv.configLimit "channels.list" zeroVideosEnv.nowIso))
        zeroVideosEnv.today zeroVideosEnv.configLimit "playlistItems.list" = true ∧
      zeroVideosEnv.fetchChannelVideos = .ok [] ∧
      (((Scraper.scrapeChannel zeroVideosEnv sampleChannel {}).1).errors
          = ["Scrape failed: No videos found for channel"] ∧
        ((Scraper.scrapeChannel zeroVideosEnv sampleChannel {}).1).videosScraped = 0) :=
  ⟨by decide, rfl, by decide, rfl,
    scrapeChannel_zero_videos_recorded_as_error zeroVideosEnv sampleChannel {}
      { viewCount := 50000, videoCount := 10, subscriberCount := 1000 }
      (by decide) rfl (by decide) rfl⟩

theorem persistPhase_videosScraped (env : Scraper.ScrapeEnv) (r : Scraper.ScrapeResult)
    (s : List Scraper.VideoSnapshotInsert) (o : List Outliers.OutlierInsert) :
    (Scraper.persistPhase env r s o).videosScraped = r.videosScraped := by
  obtain ⟨t, _, hv, _⟩ := persistPhase_shape env r s o
  exact hv

theorem persistPhase_outliersDetected (env : Scraper.ScrapeEnv) (r : Scraper.ScrapeResult)
    (s : List Scraper.VideoSnapshotInsert) (o : List Outliers.OutlierInsert) :
    (Scraper.persistPhase env r s o).outliersDetected = r.outliersDetected := by
  obtain ⟨t, _, _, ho⟩ := persistPhase_shape env r s o
  exact ho

theorem persistPhase_errors_prefix (env : Scraper.ScrapeEnv) (r : Scraper.ScrapeResult)
    (s : List Scraper.VideoSnapshotInsert) (o : List Outliers.OutlierInsert) :
    ∃ t, (Scraper.persistPhase env r s o).errors = r.errors ++ t := by
  obtain ⟨t, he, _, _⟩ := persistPhase_shape env r s o
  exact ⟨t, he⟩

/-- Collecting the per-video error entries over the zipped outcomes list
is collecting them over the videos directly. -/
theorem videoErrors_of_outcomes (env : Scraper.ScrapeEnv) (ch : Channels.TrackedChannel)
    (avg : ℚ) (opts : Scraper.ScrapeOptions) (videos : List Scraper.Video) :
    (videos.map (fun v => (v, Scraper.processVideo env ch avg opts v))).filterMap
        (fun p => match p.2 with
          | .ok _ => none
          | .error e => some (Scraper.videoErrorEntry p.1 e))
      = videos.filterMap (fun v =>
          match Scraper.processVideo env ch avg opts v with
          | .ok _ => none
          | .error e => some (Scraper.videoErrorEntry v e)) := by
  rw [List.filterMap_map]
  rfl

/-- Collecting the outlier rows over the zipped outcomes list is
collecting them over the videos directly. -/
theorem outlierRows_of_outcomes (env : Scraper.ScrapeEnv) (ch : Channels.TrackedChannel)
    (avg : ℚ) (opts : Scraper.ScrapeOptions) (videos : List Scraper.Video) :
    (videos.map (fun v => (v, Scraper.processVideo env ch avg opts v))).filterMap
        (fun p => match p.2 with
          | .ok (_, o) => o
          | .error _ => none)
      = videos.filterMap (fun v =>
          match Scraper.processVideo env ch avg opts v with
          | .ok (_, o) => o
          | .error _ => none) := by
  rw [List.filterMap_map]
  rfl

/-- C5: `scrapeChannel` is a total function (it returns a `ScrapeResult`
on every path — the never-throws contract is the type of the
embedding), and a failure while analyzing or persisting a single video
is caught and does not stop processing of the remaining videos: whenever
the channel-level setup succeeds, `videosScraped` counts every fetched
video, the per-video error entries of ALL failing videos appear (in
order, as a prefix) in the result's errors list, and `outliersDetected`
counts the qualifying outcomes of ALL videos — including those processed
after a failing one. -/
theorem scrapeChannel_isolates_video_errors
    (env : Scraper.ScrapeEnv) (ch : Channels.TrackedChannel)
    (opts : Scraper.ScrapeOptions) (stats : Scraper.ChannelStats)
    (videos : List Scraper.Video)
    (h1 : Quota.canUseQuota env.quotaStored env.today env.configLimit "channels.list" = true)
    (h2 : env.fetchChannelStats = .ok (some stats))
    (h3 : Quota.canUseQuota
        (some (Quota.trackQuotaUsage env.quotaStored env.today env.configLimit
          "channels.list" env.nowIso))
        env.today env.configLimit "playlistItems.list" = true)
    (h4 : env.fetchChannelVideos = .ok videos)
    (h5 : videos ≠ []) :
    ((Scraper.scrapeChannel env ch opts).1).videosScraped = videos.length ∧
      (∃ t, ((Scraper.scrapeChannel env ch opts).1).errors
          = videos.filterMap (fun v =>
              match Scraper.processVideo env ch
                  (Scraper.computeAvgViews ch.avg_views stats) opts v with
              | .ok _ => none
              | .error e => some (Scraper.videoErrorEntry v e)) ++ t) ∧
      ((Scraper.scrapeChannel env ch opts).1).outliersDetected
        = (videos.filterMap (fun v =>
            match Scraper.processVideo env ch
                (Scraper.computeAvgViews ch.avg_views stats) opts v with
            | .ok (_, o) => o
            | .error _ => none)).length := by
  have hlen : ¬ videos.length = 0 := fun h => h5 (List.length_eq_zero.mp h)
  unfold Scraper.scrapeChannel
  rw [h2, h4]
  simp only [h1, h3, if_true, dite_eq_ite]
  rw [if_neg hlen]
  rcases hmark : env.markChannelScraped with e | u <;>
    simp only [hmark] <;>
    refine ⟨?_, ?_, ?_⟩
  · simp [Scraper.pushScrapeFailed, persistPhase_videosScraped]
  · obtain ⟨t, ht⟩ := persistPhase_errors_prefix env _ _ _
    refine ⟨t ++ ["Scrape failed: " ++ e], ?_⟩
    simp only [Scraper.pushScrapeFailed]
    try dsimp only
    rw [ht]
    try dsimp only
    rw [videoErrors_of_outcomes, List.append_assoc]
  · simp only [Scraper.pushScrapeFailed]
    try dsimp only
    rw [persistPhase_outliersDetected]
    try dsimp only
    rw [outlierRows_of_outcomes]
  · simp [persistPhase_videosScraped]
  · obtain ⟨t, ht⟩ := persistPhase_errors_prefix env _ _ _
    refine ⟨t, ?_⟩
    rw [ht]
    try dsimp only
    rw [videoErrors_of_outcomes]
  · try dsimp only
    rw [persistPhase_outliersDetected]
    try dsimp only
    rw [outlierRows_of_outcomes]

/-- Fixture video a. -/
def videoA : Scraper.Video :=
  { id := "a", title := "A", thumbnailUrl := "ua", views := 40000,
    likes := some 900, comments := some 100, publishDate := 0 }

/-- Fixture video b (its snapshot lookup will fail). -/
def videoB : Scraper.Video :=
  { id := "b", title := "B", thumbnailUrl := "ub", views := 3000,
    likes := some 40, comments := some 5, publishDate := 0 }

/-- Fixture video c. -/
def videoC : Scraper.Video :=
  { id := "c", title := "C", thumbnailUrl := "uc", views := 60000,
    likes := some 2000, comments := some 300, publishDate := 0 }

/-- A concrete environment in which the snapshot lookup of video `b`
fails while everything else succeeds. -/
def flakySnapshotEnv : Scraper.ScrapeEnv :=
  { now := 3600000, nowIso := "t1", today := "2024-01-01", configLimit := 10000,
    quotaStored := none,
    fetchChannelStats :=
      .ok (some { viewCount := 50000, videoCount := 10, subscriberCount := 1000 }),
    fetchChannelVideos := .ok [videoA, videoB, videoC],
    getLatestSnapshot := fun vid => if vid = "b" then .error "DB down" else .ok none,
    addSnapshotsBulk := fun _ => .ok (),
    upsertOutlier := fun _ => .ok (),
    updateChannelStats := .ok (),
    markChannelScraped := .ok () }

/-- Witness for C5: three fetched videos with the middle one failing. -/
theorem scrapeChannel_isolates_video_errors_witness :
    Quota.canUseQuota flakySnapshotEnv.quotaStored flakySnapshotEnv.today
        flakySnapshotEnv.configLimit "channels.list" = true ∧
      flakySnapshotEnv.fetchChannelStats
        = .ok (some { viewCount := 50000, videoCount := 10, subscriberCount := 1000 }) ∧
      Quota.canUseQuota
        (some (Quota.trackQuotaUsage flakySnapshotEnv.quotaStored flakySnapshotEnv.today
          flakySnapshotEnv.configLimit "channels.list" flakySnapshotEnv.nowIso))
        flakySnapshotEnv.today flakySnapshotEnv.configLimit "playlistItems.list" = true ∧
      flakySnapshotEnv.fetchChannelVideos = .ok [videoA, videoB, videoC] ∧
      [videoA, videoB, videoC] ≠ ([] : List Scraper.Video) ∧
      (((Scraper.scrapeChannel flakySnapshotEnv sampleChannel {}).1).videosScraped
          = [videoA, videoB, videoC].length ∧
        (∃ t, ((Scraper.scrapeChannel flakySnapshotEnv sampleChannel {}).1).errors
            = [videoA, videoB, videoC].filterMap (fun v =>
                match Scraper.processVideo flakySnapshotEnv sampleChannel
                    (Scraper.computeAvgViews sampleChannel.avg_views
                      { viewCount := 50000, videoCount := 10, subscriberCount := 1000 })
                    {} v with
                | .ok _ => none
                | .error e => some (Scraper.videoErrorEntry v e)) ++ t) ∧
        ((Scraper.scrapeChannel flakySnapshotEnv sampleChannel {}).1).outliersDetected
          = ([videoA, videoB, videoC].filterMap (fun v =>
              match Scraper.processVideo flakySnapshotEnv sampleChannel
                  (Scraper.computeAvgViews sampleChannel.avg_views
                    { viewCount := 50000, videoCount := 10, subscriberCount := 1000 })
                  {} v with
              | .ok (_, o) => o
              | .error _ => none)).length) :=
  ⟨by decide, rfl, by decide, rfl, by simp,
    scrapeChannel_isolates_video_errors flakySnapshotEnv sampleChannel {}
      { viewCount := 50000, videoCount := 10, subscriberCount := 1000 }
      [videoA, videoB, videoC] (by decide) rfl (by decide) rfl (by simp)⟩

namespace Scraper

/-- `getScrapeResultsSummary` (scraper.ts line 275). -/
structure ScrapeSummary where
  totalChannels : ℕ
  totalVideos : ℕ
  totalOutliers : ℕ
  totalSnapshots : ℕ
  totalQuotaUsed : ℤ
  totalErrors : ℕ
  channelsWithErrors : ℕ
deriving Repr, DecidableEq

/-- `getScrapeResultsSummary` (scraper.ts line 275): totals over a batch
of scrape results. -/
def getScrapeResultsSummary (results : List ScrapeResult) : ScrapeSummary :=
  { totalChannels := results.length
    totalVideos := (results.map (fun r => r.videosScraped)).sum
    totalOutliers := (results.map (fun r => r.outliersDetected)).sum
    totalSnapshots := (results.map (fun r => r.snapshotsStored)).sum
    totalQuotaUsed := (results.map (fun r => r.quotaUsed)).sum
    totalErrors := (results.map (fun r => r.errors.length)).sum
    channelsWithErrors := (results.filter (fun r => 0 < r.errors.length)).length }

end Scraper

namespace Scheduler

/-- Persisted scheduler run-state (rotationScheduler.ts `SchedulerState`).
Timestamps are milliseconds since epoch. -/
structure SchedulerState where
  isRunning : Bool
  lastRunAt : Option ℚ
  nextRunAt : Option ℚ
  channelsScraped : ℕ
  outliersFound : ℕ
  quotaUsed : ℤ
  errors : List String
deriving Repr, DecidableEq

/-- `calculateNextRunTime` (rotationScheduler.ts line 77): the source
adds `intervalHours` to the current Date's hour component; on the
model's epoch-millisecond clock that is `now + intervalHours * 3600000`
milliseconds. -/
def calculateNextRunTime (now intervalHours : ℚ) : ℚ :=
  now + intervalHours * 3600000

/-- `shouldRunScheduler` (rotationScheduler.ts line 86): the `nextRunAt`
gate used by the normal (non-force) path. -/
def shouldRunScheduler (state : SchedulerState) (now : ℚ) : Bool :=
  match state.nextRunAt with
  | none => true
  | some t => decide (t ≤ now)

/-- `forceRunScheduler` (rotationScheduler.ts line 199).  The awaited
`runScrapingSession` outcome is the `session` parameter (a `.error`
models a rejected promise, e.g. the insufficient-quota throw).  The
source never consults `shouldRunScheduler`: the session runs whatever
`state.nextRunAt` holds.  On success every state field is rewritten,
including `nextRunAt := calculateNextRunTime now intervalHours`; in the
`catch` branch only `isRunning` and `errors` are written — `nextRunAt`
keeps its old value — and the error is re-thrown (returned as `.error`).
The transient `isRunning := true` persisted before the try block is
internal to the call and not part of the returned final state. -/
def forceRunScheduler (state : SchedulerState)
    (session : Except String (List Scraper.ScrapeResult))
    (now intervalHours : ℚ) :
    SchedulerState × Except String (List Scraper.ScrapeResult) :=
  match session with
  | .ok results =>
    let summary := Scraper.getScrapeResultsSummary results
    ({ isRunning := false
       lastRunAt := some now
       nextRunAt := some (calculateNextRunTime now intervalHours)
       channelsScraped := summary.totalChannels
       outliersFound := summary.totalOutliers
       quotaUsed := summary.totalQuotaUsed
       errors := (results.filter (fun r => 0 < r.errors.length)).map
         (fun r => r.channelName ++ ": " ++ String.intercalate ", " r.errors) },
      .ok results)
  | .error e =>
    ({ state with isRunning := false, errors := [e] }, .error e)

end Scheduler

/-- C9 counterexample: a force run whose scraping session fails does NOT
reschedule `nextRunAt` — the catch branch of `forceRunScheduler` leaves
it at its old value (here 999) instead of `now + intervalHours`, and
re-throws the error instead of returning normally. -/
theorem forceRunScheduler_failure_no_reschedule_cex :
    (Scheduler.forceRunScheduler
        { isRunning := false, lastRunAt := none, nextRunAt := some 999,
          channelsScraped := 0, outliersFound := 0, quotaUsed := 0, errors := [] }
        (.error "session failed") 0 6).1.nextRunAt = some 999 ∧
      some (999 : ℚ) ≠ some (Scheduler.calculateNextRunTime 0 6) ∧
      (Scheduler.forceRunScheduler
        { isRunning := false, lastRunAt := none, nextRunAt := some 999,
          channelsScraped := 0, outliersFound := 0, quotaUsed := 0, errors := [] }
        (.error "session failed") 0 6).2 = .error "session failed" := by
  refine ⟨rfl, ?_, rfl⟩
  simp only [ne_eq, Option.some.injEq]
  norm_num [Scheduler.calculateNextRunTime]

/-- C9 amended: a force run bypasses the `nextRunAt` gate (the session
outcome is consumed no matter what `nextRunAt` holds) and, ON SUCCESS,
reschedules `nextRunAt` to now plus the configured interval, stamps
`lastRunAt`, and clears `isRunning`; but when the scraping session
fails, `nextRunAt` is left unchanged, only `isRunning` and `errors` are
updated, and the error is re-thrown rather than handled as in the
normal scheduler path. -/
theorem forceRunScheduler_reschedules_only_on_success
    (state : Scheduler.SchedulerState)
    (session : Except String (List Scraper.ScrapeResult)) (now intervalHours : ℚ) :
    (∀ results, session = .ok results →
        (Scheduler.forceRunScheduler state session now intervalHours).1.nextRunAt
            = some (Scheduler.calculateNextRunTime now intervalHours) ∧
          (Scheduler.forceRunScheduler state session now intervalHours).1.lastRunAt
            = some now ∧
          (Scheduler.forceRunScheduler state session now intervalHours).1.isRunning
            = false) ∧
      (∀ e, session = .error e →
        (Scheduler.forceRunScheduler state session now intervalHours).1.nextRunAt
            = state.nextRunAt ∧
          (Scheduler.forceRunScheduler state session now intervalHours).1.isRunning
            = false ∧
          (Scheduler.forceRunScheduler state session now intervalHours).1.errors = [e]) ∧
      (Scheduler.forceRunScheduler state session now intervalHours).2 = session := by
  rcases session with e | results <;>
    simp [Scheduler.forceRunScheduler]

/-- Witness for the amended C9: a successful force run at a state whose
gate would have said "not due yet". -/
theorem forceRunScheduler_reschedules_only_on_success_witness :
    (Scheduler.forceRunScheduler
        { isRunning := false, lastRunAt := none, nextRunAt := some 42,
          channelsScraped := 0, outliersFound := 0, quotaUsed := 0, errors := [] }
        (.ok []) 0 6).1.nextRunAt = some (Scheduler.calculateNextRunTime 0 6) ∧
      (Scheduler.forceRunScheduler
        { isRunning := false, lastRunAt := none, nextRunAt := some 42,
          channelsScraped := 0, outliersFound := 0, quotaUsed := 0, errors := [] }
        (.ok []) 0 6).1.lastRunAt = some 0 ∧
      (Scheduler.forceRunScheduler
        { isRunning := false, lastRunAt := none, nextRunAt := some 42,
          channelsScraped := 0, outliersFound := 0, quotaUsed := 0, errors := [] }
        (.ok []) 0 6).1.isRunning = false ∧
      (Scheduler.forceRunScheduler
        { isRunning := false, lastRunAt := none, nextRunAt := some 42,
          channelsScraped := 0, outliersFound := 0, quotaUsed := 0, errors := [] }
        (.ok []) 0 6).2 = .ok [] := by
  have h := forceRunScheduler_reschedules_only_on_success
    { isRunning := false, lastRunAt := none, nextRunAt := some 42,
      channelsScraped := 0, outliersFound := 0, quotaUsed := 0, errors := [] }
    (.ok []) 0 6
  exact ⟨(h.1 [] rfl).1, (h.1 [] rfl).2.1, (h.1 [] rfl).2.2, h.2.2⟩

/-- Fixture channel A: priority 10, never scraped. -/
def chA : Channels.TrackedChannel :=
  { channel_id := "A", channel_name := "A", avg_views := 0,
    last_scraped_at := none, scrape_frequency := 21600, is_active := true,
    scrape_priority := 10 }

/-- Fixture channel B: priority 10, scraped one hour before the fixture
clock, 6-hour interval (not due). -/
def chB : Channels.TrackedChannel :=
  { channel_id := "B", channel_name := "B", avg_views := 0,
    last_scraped_at := some 82800000, scrape_frequency := 21600, is_active := true,
    scrape_priority := 10 }

/-- Fixture channel C: priority 5, never scraped. -/
def chC : Channels.TrackedChannel :=
  { channel_id := "C", channel_name := "C", avg_views := 0,
    last_scraped_at := none, scrape_frequency := 21600, is_active := true,
    scrape_priority := 5 }

/-- Witness for C6 at the concrete three-channel scenario. -/
theorem getChannelsDueForScraping_spec_witness :
    (∀ c ∈ Channels.getChannelsDueForScraping [chA, chB, chC] 10 86400000,
        c ∈ [chA, chB, chC] ∧ c.is_active = true ∧ Channels.isDue 86400000 c = true) ∧
      (Channels.getChannelsDueForScraping [chA, chB, chC] 10 86400000).length ≤ 10 ∧
      (Channels.getChannelsDueForScraping [chA, chB, chC] 10 86400000).Pairwise
        (fun a b => Channels.channelLE a b = true) :=
  getChannelsDueForScraping_spec [chA, chB, chC] 10 86400000
